import Mathlib

/-!
# Shallow embedding of `src/components/VncDisplay/index.jsx`

The repository is a single React component, `VncDisplay`, that wraps an
external remote-framebuffer client (`RFB` from noVNC).  We embed the
component's observable behaviour:

* `Props` mirrors the component's configuration record.  JavaScript
  `null`/absent values are `Option.none`; caller-supplied callback
  functions are identified by `Nat` handles (their identity is all the
  component ever uses — it stores and invokes them, never inspects them).
* Imperative calls made against the external client instance are recorded
  in an effect trace (`Effect`), so "exactly one field assignment" and
  ordering claims become statements about lists.
* The component's mutable state (`this.rfb`, `this.canvas`, `this.props`,
  React's mounted flag) is the record `CState`.  Two ghost fields
  (`lastConnectHadCanvas`, `usedIds`) instrument the lifecycle for the
  invariant and freshness claims; they are written only where noted and
  never read by the modelled code paths.
* JavaScript truthiness on the typed props is explicit: a boolean prop is
  truthy iff it is `some true`, a numeric prop iff it is `some n` with
  `n ≠ 0`, a string prop iff it is `some s` with `s ≠ ""`.
* `componentWillReceiveProps` calls `this.get_mouse()`, but the component
  class declares no `get_mouse` method, so reaching that call throws a
  `TypeError` at runtime.  We model the method table of the class
  (`componentMethodNames`, transcribed from the class body) and the update
  handler returns the effects performed before the failing lookup together
  with an optional error string.
-/

/-- The ten pass-through configuration fields that `connect` copies onto
the `RFB` instance (`if (x) this.rfb.x = x;` lines of the source). -/
inductive PassField where
  | viewOnly
  | focusOnClick
  | clipViewport
  | dragViewport
  | scaleViewport
  | resizeSession
  | showDotCursor
  | background
  | qualityLevel
  | compressionLevel
deriving DecidableEq, Repr

/-- A JavaScript value written onto an `RFB` field: the pass-through props
are booleans, numbers or strings. -/
inductive PValue where
  | vb (x : Bool)
  | vi (x : Int)
  | vs (x : String)
deriving DecidableEq, Repr

/-- The external client's event identifiers wired by the `events` table of
the source. -/
inductive EventName where
  | connect
  | disconnect
  | credentialsrequired
  | securityfailure
  | clipboard
  | bell
  | desktopname
  | capabilities
deriving DecidableEq, Repr, Fintype

/-- The callback-prop names: the right-hand sides of the `events` table. -/
inductive Slot where
  | onConnect
  | onDisconnect
  | onCredentialsRequired
  | onSecurityFailure
  | onClipboard
  | onBell
  | onDesktopName
  | onCapabilities
deriving DecidableEq, Repr, Fintype

/-- The fixed event-name-to-callback-prop mapping, in source order
(`const events = { connect: 'onConnect', ... }`). -/
def events : List (EventName × Slot) :=
  [(.connect, .onConnect),
   (.disconnect, .onDisconnect),
   (.credentialsrequired, .onCredentialsRequired),
   (.securityfailure, .onSecurityFailure),
   (.clipboard, .onClipboard),
   (.bell, .onBell),
   (.desktopname, .onDesktopName),
   (.capabilities, .onCapabilities)]

/-- The component's configuration record.  Fields follow `propTypes` /
`defaultProps` of the source; `scale` is read by
`componentWillReceiveProps` although it is not declared there.  Callback
props hold `Nat` handles standing for caller functions. -/
structure Props where
  url : String
  style : Option Nat
  width : Nat
  height : Nat
  wsProtocols : List String
  trueColor : Bool
  localCursor : Bool
  scale : Option Int
  shared : Option Bool
  viewOnly : Option Bool
  focusOnClick : Option Bool
  clipViewport : Option Bool
  dragViewport : Option Bool
  scaleViewport : Option Bool
  resizeSession : Option Bool
  showDotCursor : Option Bool
  background : Option String
  qualityLevel : Option Int
  compressionLevel : Option Int
  onConnect : Option Nat
  onDisconnect : Option Nat
  onCredentialsRequired : Option Nat
  onSecurityFailure : Option Nat
  onClipboard : Option Nat
  onBell : Option Nat
  onDesktopName : Option Nat
  onCapabilities : Option Nat
deriving DecidableEq, Repr

/-- Source `static defaultProps`, merged over a caller-supplied
`url` (the one required prop, which has no default).  `scale` and
`onCapabilities` are not listed in `defaultProps`; leaving a prop out and
defaulting it to `null` are indistinguishable to the component's logic and
both are `none` here. -/
def defaultProps (url : String) : Props where
  url := url
  style := none
  width := 1280
  height := 720
  wsProtocols := ["binary"]
  trueColor := true
  localCursor := true
  scale := none
  shared := none
  viewOnly := none
  focusOnClick := none
  clipViewport := none
  dragViewport := none
  scaleViewport := none
  resizeSession := none
  showDotCursor := none
  background := none
  qualityLevel := none
  compressionLevel := none
  onConnect := none
  onDisconnect := none
  onCredentialsRequired := none
  onSecurityFailure := none
  onClipboard := none
  onBell := none
  onDesktopName := none
  onCapabilities := none

/-- Read a callback slot from the props (`this.props[propertyName]`). -/
def getSlot (p : Props) : Slot → Option Nat
  | .onConnect => p.onConnect
  | .onDisconnect => p.onDisconnect
  | .onCredentialsRequired => p.onCredentialsRequired
  | .onSecurityFailure => p.onSecurityFailure
  | .onClipboard => p.onClipboard
  | .onBell => p.onBell
  | .onDesktopName => p.onDesktopName
  | .onCapabilities => p.onCapabilities

/-- The live `RFB` instance as this component sees it: identity, the
constructor arguments it was built from, and the listeners registered on
it.  A listener stores the *slot name*, because the handler closure reads
`this.props[propertyName]` at fire time. -/
structure Inst where
  id : Nat
  canvasRef : Nat
  url : String
  listeners : List (EventName × Slot)
deriving DecidableEq, Repr

/-- An imperative call made against the outside world (the `RFB` instance
or the DOM), recorded in order. -/
inductive Effect where
  | construct (canvas : Nat) (url : String) (cfg : Props)
  | assign (f : PassField) (v : PValue)
  | addListener (e : EventName)
  | rfbDisconnect (id : Nat)
  | rfbFocus (id : Nat)
  | rfbBlur (id : Nat)
  | blurActiveElement
  | setDisplayScale (v : Int)
  | setMouseScale (v : Int)
deriving DecidableEq, Repr

/-- The component's mutable state.  `rfb` is `this.rfb`, `canvas` is
`this.canvas` (the container handle set by the `ref` callback), `props`
is `this.props`, `mounted` is React's mount status.  `nextId`,
`lastConnectHadCanvas` and `usedIds` are ghost instrumentation: the id
supply for fresh instances, whether a container handle was available at
the last `connect` attempt, and the ids of every instance ever
constructed. -/
structure CState where
  mounted : Bool
  canvas : Option Nat
  props : Props
  rfb : Option Inst
  nextId : Nat
  lastConnectHadCanvas : Bool
  usedIds : List Nat
deriving DecidableEq, Repr

/-- The methods defined on the `VncDisplay` class body.  Note there is no
`get_mouse`: line 186 of the source calls `this.get_mouse()`, which is
`undefined` on the component and throws a `TypeError` when invoked. -/
def componentMethodNames : List String :=
  ["componentDidMount", "componentWillUnmount", "componentWillReceiveProps",
   "disconnect", "connect", "registerChild", "handleMouseEnter",
   "handleMouseLeave", "render"]

/-- Evaluation of `nextProps.scale || 1`: the scale value passed to the
setters, `1` when the scale prop is falsy (absent/null or `0`). -/
def scaleOrOne : Option Int → Int
  | none => 1
  | some v => if v = 0 then 1 else v

/-- Source `disconnect = () => { if (!this.rfb) return;
this.rfb.disconnect(); this.rfb = null; }` — returns the new state and
the calls performed. -/
def disconnect (s : CState) : CState × List Effect :=
  match s.rfb with
  | none => (s, [])
  | some i => ({ s with rfb := none }, [Effect.rfbDisconnect i.id])

/-- The value a truthy pass-through prop contributes, `none` when the
`if (x)` guard is falsy (absent/null, `false`, `0`, or `""`). -/
def truthyVal (p : Props) : PassField → Option PValue
  | .viewOnly => match p.viewOnly with | some true => some (.vb true) | _ => none
  | .focusOnClick => match p.focusOnClick with | some true => some (.vb true) | _ => none
  | .clipViewport => match p.clipViewport with | some true => some (.vb true) | _ => none
  | .dragViewport => match p.dragViewport with | some true => some (.vb true) | _ => none
  | .scaleViewport => match p.scaleViewport with | some true => some (.vb true) | _ => none
  | .resizeSession => match p.resizeSession with | some true => some (.vb true) | _ => none
  | .showDotCursor => match p.showDotCursor with | some true => some (.vb true) | _ => none
  | .background => match p.background with
      | some str => if str = "" then none else some (.vs str)
      | none => none
  | .qualityLevel => match p.qualityLevel with
      | some n => if n = 0 then none else some (.vi n)
      | none => none
  | .compressionLevel => match p.compressionLevel with
      | some n => if n = 0 then none else some (.vi n)
      | none => none

/-- The raw value of a pass-through prop, for stating "no pass-through
property's value changed" between two configurations. -/
def passValue (p : Props) : PassField → Option PValue
  | .viewOnly => p.viewOnly.map .vb
  | .focusOnClick => p.focusOnClick.map .vb
  | .clipViewport => p.clipViewport.map .vb
  | .dragViewport => p.dragViewport.map .vb
  | .scaleViewport => p.scaleViewport.map .vb
  | .resizeSession => p.resizeSession.map .vb
  | .showDotCursor => p.showDotCursor.map .vb
  | .background => p.background.map .vs
  | .qualityLevel => p.qualityLevel.map .vi
  | .compressionLevel => p.compressionLevel.map .vi

/-- The ten `if (x) this.rfb.x = x;` statements of `connect`, in source
order. -/
def passFieldOrder : List PassField :=
  [.viewOnly, .focusOnClick, .clipViewport, .dragViewport, .scaleViewport,
   .resizeSession, .showDotCursor, .background, .qualityLevel, .compressionLevel]

/-- The field assignments `connect` performs on the fresh instance: one
per pass-through prop whose value is truthy, in source order. -/
def passAssignEffects (p : Props) : List Effect :=
  passFieldOrder.filterMap (fun f => (truthyVal p f).map (fun v => Effect.assign f v))

/-- The `Object.entries(events).forEach` loop: the mapping entries whose
callback prop is present and non-null (`propertyName in this.props &&
this.props[propertyName] != null`). -/
def registrations (p : Props) : List (EventName × Slot) :=
  events.filter (fun pr => (getSlot p pr.2).isSome)

/-- The `addEventListener` calls made by `connect`, in source order. -/
def listenerEffects (p : Props) : List Effect :=
  (registrations p).map (fun pr => Effect.addListener pr.1)

/-- Source `connect`: tear down any existing instance, bail out silently if no
container handle, otherwise `new RFB(this.canvas, url, this.props)`, then
the truthy pass-through assignments, then the listener registrations. -/
def connect (s : CState) : CState × List Effect :=
  let sd := disconnect s
  match sd.1.canvas with
  | none => ({ sd.1 with lastConnectHadCanvas := false }, sd.2)
  | some cv =>
      let inst : Inst :=
        { id := sd.1.nextId
          canvasRef := cv
          url := sd.1.props.url
          listeners := registrations sd.1.props }
      ({ sd.1 with
          rfb := some inst
          nextId := sd.1.nextId + 1
          lastConnectHadCanvas := true
          usedIds := sd.1.usedIds ++ [sd.1.nextId] },
       sd.2 ++ Effect.construct cv sd.1.props.url sd.1.props
            :: (passAssignEffects sd.1.props ++ listenerEffects sd.1.props))

/-- Source `componentWillReceiveProps(nextProps)`: early-return when no instance;
otherwise, when the `scale` prop changed (strict `!==`), call
`this.rfb.get_display().set_scale(nextProps.scale || 1)` and then
`this.get_mouse().set_scale(...)`.  The second lookup is against the
component itself, whose method table has no `get_mouse`, so the call
throws; the result pairs the effects performed before the throw with the
error, `none` when no error is raised. -/
def willReceiveProps (s : CState) (next : Props) : List Effect × Option String :=
  match s.rfb with
  | none => ([], none)
  | some _ =>
      if next.scale ≠ s.props.scale then
        if componentMethodNames.contains "get_mouse" then
          ([Effect.setDisplayScale (scaleOrOne next.scale),
            Effect.setMouseScale (scaleOrOne next.scale)], none)
        else
          ([Effect.setDisplayScale (scaleOrOne next.scale)],
           some "TypeError: this.get_mouse is not a function")
      else ([], none)

/-- A props update as the framework performs it: run
`componentWillReceiveProps`, then replace `this.props`.  The instance
reference is untouched. -/
def doUpdate (s : CState) (next : Props) : CState × (List Effect × Option String) :=
  ({ s with props := next }, willReceiveProps s next)

/-- Mount: React calls the `ref` callback (`registerChild`, storing the
container handle) and then `componentDidMount`, which calls `connect`. -/
def doMount (s : CState) (cv : Option Nat) : CState × List Effect :=
  connect { s with mounted := true, canvas := cv }

/-- Unmount: `componentWillUnmount` calls `disconnect`; React then drops
the component. -/
def doUnmount (s : CState) : CState × List Effect :=
  let d := disconnect s
  ({ d.1 with mounted := false }, d.2)

/-- Source `handleMouseEnter`: no-op without an instance, otherwise blur
the active element and focus the instance. -/
def handleMouseEnter (s : CState) : List Effect :=
  match s.rfb with
  | none => []
  | some i => [Effect.blurActiveElement, Effect.rfbFocus i.id]

/-- Source `handleMouseLeave`: no-op without an instance, otherwise blur it. -/
def handleMouseLeave (s : CState) : List Effect :=
  match s.rfb with
  | none => []
  | some i => [Effect.rfbBlur i.id]

/-- The style of the rendered container: `this.props.style || { width,
height }`.  An explicit style object (opaque handle) wins; otherwise the
width/height props size the container. -/
inductive StyleVal where
  | explicitStyle (s : Nat)
  | sized (width : Nat) (height : Nat)
deriving DecidableEq, Repr

/-- Source `render()`: the list of host container elements produced (each
with its style); the source returns a single `<div>`. -/
def render (p : Props) : List StyleVal :=
  [match p.style with
   | some st => StyleVal.explicitStyle st
   | none => StyleVal.sized p.width p.height]

/-- The outcome of the external client firing event `e`: no listener was
registered for it, or the registered handler ran `this.props[slot]()` —
invoking the current occupant with no arguments, or throwing if the slot
no longer holds a function. -/
inductive FireResult where
  | noListener
  | invoked (cb : Nat)
  | errNotAFunction
deriving DecidableEq, Repr

/-- Fire event `e` on the live instance: dispatch to the first listener
registered for `e`; its handler reads `this.props[propertyName]` at fire
time (late binding) and calls it with no arguments. -/
def fireEvent (s : CState) (e : EventName) : FireResult :=
  match s.rfb with
  | none => .noListener
  | some inst =>
      match inst.listeners.find? (fun pr => decide (pr.1 = e)) with
      | none => .noListener
      | some pr =>
          match getSlot s.props pr.2 with
          | some cb => .invoked cb
          | none => .errNotAFunction

/-- The component's state when constructed with props `p`, before mount:
no instance, no container handle. -/
def initState (p : Props) : CState where
  mounted := false
  canvas := none
  props := p
  rfb := none
  nextId := 0
  lastConnectHadCanvas := false
  usedIds := []

/-- The states reachable through the component's lifecycle: construction,
mount (the `ref` callback may or may not deliver a handle), props
updates while mounted, and unmount. -/
inductive Reachable (p : Props) : CState → Prop where
  | init : Reachable p (initState p)
  | mount {s : CState} (cv : Option Nat) :
      Reachable p s → s.mounted = false → Reachable p (doMount s cv).1
  | update {s : CState} (next : Props) :
      Reachable p s → s.mounted = true → Reachable p (doUpdate s next).1
  | unmount {s : CState} :
      Reachable p s → s.mounted = true → Reachable p (doUnmount s).1

/-! ## Helper definitions and lemmas -/

/-- Recognize a pass-through field assignment in an effect trace. -/
def isAssignEffect : Effect → Bool
  | .assign _ _ => true
  | _ => false

/-- Recognize an instance construction in an effect trace. -/
def isConstructEffect : Effect → Bool
  | .construct _ _ _ => true
  | _ => false

lemma willReceiveProps_no_assign (s : CState) (next : Props) :
    ((willReceiveProps s next).1).countP isAssignEffect = 0 := by
  unfold willReceiveProps
  rcases s.rfb with _ | i
  · simp
  · dsimp only
    split
    · split
      · simp_all [componentMethodNames]
      · simp [List.countP, List.countP.go, isAssignEffect]
    · simp

lemma disconnect_canvas (s : CState) : (disconnect s).1.canvas = s.canvas := by
  rcases h : s.rfb with _ | i <;> simp [disconnect, h]

lemma disconnect_props (s : CState) : (disconnect s).1.props = s.props := by
  rcases h : s.rfb with _ | i <;> simp [disconnect, h]

lemma disconnect_rfb (s : CState) : (disconnect s).1.rfb = none := by
  rcases h : s.rfb with _ | i <;> simp [disconnect, h]

/-! ## C1 -/

/-- State for the qualityLevel scenario: mount with a container handle and
`qualityLevel: 3`. -/
def c1Props : Props := { defaultProps "wss://example1" with qualityLevel := some 3 }

def c1Start : CState := (doMount (initState c1Props) (some 0)).1

def c1Next : Props := { c1Props with qualityLevel := some 7 }

/-- C1 counterexample: with a live Client Instance, updating the
configuration from `qualityLevel: 3` to `qualityLevel: 7` performs NO
field assignment at all — `componentWillReceiveProps` only inspects
`scale` — contradicting the claimed "exactly one assignment setting
quality to 7". -/
theorem c1_quality_update_assigns_nothing :
    c1Start.rfb.isSome = true ∧
    c1Start.props.qualityLevel = some 3 ∧
    c1Next.qualityLevel = some 7 ∧
    (willReceiveProps c1Start c1Next).1 = [] ∧
    ((willReceiveProps c1Start c1Next).1).count
      (Effect.assign .qualityLevel (.vi 7)) = 0 := by
  refine ⟨rfl, rfl, rfl, rfl, rfl⟩

/-- C1 amended: while a Client Instance exists, a configuration update
performs no pass-through field assignment whatsoever — changed pass-through
values (such as qualityLevel 3 → 7) are silently ignored; pass-through
values reach the instance only at connect time. -/
theorem c1_update_never_assigns_passthrough (s : CState) (next : Props) :
    ((willReceiveProps s next).1).countP isAssignEffect = 0 :=
  willReceiveProps_no_assign s next

/-! ## C4 -/

/-- C4: `disconnect` is a no-op without an instance, otherwise calls the
instance's disconnect and clears the reference; a repeated call is a
no-op.  The modelled function is total (never raises). -/
theorem c4_disconnect_idempotent_teardown (s : CState) :
    (s.rfb = none → disconnect s = (s, [])) ∧
    (∀ i, s.rfb = some i →
      (disconnect s).1 = { s with rfb := none } ∧
      (disconnect s).2 = [Effect.rfbDisconnect i.id]) ∧
    disconnect (disconnect s).1 = ((disconnect s).1, []) := by
  rcases h : s.rfb with _ | i
  · exact ⟨fun _ => by simp [disconnect, h],
      fun j hj => by simp at hj,
      by simp [disconnect, h]⟩
  · refine ⟨fun hn => by simp at hn, fun j hj => ?_, by simp [disconnect, h]⟩
    obtain rfl := Option.some.inj hj
    exact ⟨by simp [disconnect, h], by simp [disconnect, h]⟩

def c4Inst : Inst :=
  { id := 0, canvasRef := 0, url := "wss://example4", listeners := [] }

def c4S : CState := (doMount (initState (defaultProps "wss://example4")) (some 0)).1

/-- C4 witness: a concrete mounted-and-connected state; tearing down emits
one disconnect call, and tearing down again is a no-op. -/
theorem c4_disconnect_idempotent_teardown_witness :
    (disconnect c4S).2 = [Effect.rfbDisconnect 0] ∧
    disconnect (disconnect c4S).1 = ((disconnect c4S).1, []) :=
  ⟨((c4_disconnect_idempotent_teardown c4S).2.1 c4Inst rfl).2,
   (c4_disconnect_idempotent_teardown c4S).2.2⟩

/-! ## C6 -/

def c6Start : CState := (doMount (initState (defaultProps "wss://example6")) (some 0)).1

def c6Next : Props := { defaultProps "wss://example6" with scale := some 2 }

/-- C6 failing input: with a live Client Instance, a configuration update
whose `scale` differs calls the display-scale setter and then throws a
`TypeError`, because `this.get_mouse` is not a method of the component —
the input-pointer-scale setter is never reached and the update raises,
contrary to the claim. -/
theorem c6_scale_update_raises :
    c6Start.rfb.isSome = true ∧
    c6Start.props.scale = none ∧
    c6Next.scale = some 2 ∧
    willReceiveProps c6Start c6Next =
      ([Effect.setDisplayScale 2],
       some "TypeError: this.get_mouse is not a function") := by
  refine ⟨rfl, rfl, rfl, rfl⟩

/-! ## C8 -/

/-- C8: a configuration update that changes no pass-through property
writes no field of the live instance (in fact no update ever does), and
the owned instance reference — listeners included — is untouched. -/
theorem c8_no_redundant_writes (s : CState) (next : Props)
    (_hpass : ∀ f, passValue s.props f = passValue next f) :
    ((willReceiveProps s next).1).countP isAssignEffect = 0 ∧
    (doUpdate s next).1.rfb = s.rfb :=
  ⟨willReceiveProps_no_assign s next, rfl⟩

def c8S : CState := (doMount (initState (defaultProps "wss://example8")) (some 0)).1

def c8Next : Props := { defaultProps "wss://example8" with width := 800 }

/-- C8 witness: a concrete update changing only `width` (no pass-through
change) performs no field assignment and keeps the instance intact. -/
theorem c8_no_redundant_writes_witness :
    ((willReceiveProps c8S c8Next).1).countP isAssignEffect = 0 ∧
    (doUpdate c8S c8Next).1.rfb = c8S.rfb :=
  c8_no_redundant_writes c8S c8Next (fun f => by cases f <;> rfl)

/-! ## C2 -/

lemma mem_passFieldOrder (f : PassField) : f ∈ passFieldOrder := by
  cases f <;> simp [passFieldOrder]

lemma mem_passAssignEffects {p : Props} {f : PassField} {v : PValue} :
    Effect.assign f v ∈ passAssignEffects p ↔ truthyVal p f = some v := by
  unfold passAssignEffects
  rw [List.mem_filterMap]
  constructor
  · rintro ⟨f', _, hmap⟩
    rcases h : truthyVal p f' with _ | v'
    · rw [h] at hmap
      simp at hmap
    · rw [h] at hmap
      simp only [Option.map_some'] at hmap
      injection hmap with hmap
      injection hmap with h1 h2
      subst h1
      subst h2
      exact h
  · intro h
    exact ⟨f, mem_passFieldOrder f, by rw [h]; rfl⟩

lemma nodup_passAssignEffects (p : Props) : (passAssignEffects p).Nodup := by
  apply List.Nodup.filterMap ?_ (by decide : passFieldOrder.Nodup)
  intro a a' b hb hb'
  rcases ha : truthyVal p a with _ | v
  · rw [ha] at hb
    simp at hb
  · rw [ha] at hb
    simp only [Option.map_some', Option.mem_def, Option.some.injEq] at hb
    rcases ha' : truthyVal p a' with _ | v'
    · rw [ha'] at hb'
      simp at hb'
    · rw [ha'] at hb'
      simp only [Option.map_some', Option.mem_def, Option.some.injEq] at hb'
      rw [← hb'] at hb
      injection hb with h1 h2

lemma count_passAssignEffects {p : Props} {f : PassField} {v : PValue}
    (h : truthyVal p f = some v) :
    (passAssignEffects p).count (Effect.assign f v) = 1 :=
  List.count_eq_one_of_mem (nodup_passAssignEffects p) (mem_passAssignEffects.2 h)

def c2Props : Props :=
  { defaultProps "wss://example2" with viewOnly := some false, qualityLevel := some 0 }

def c2S : CState := { initState c2Props with mounted := true, canvas := some 0 }

/-- C2 counterexample: `connect` guards each pass-through application with
JavaScript truthiness, not a non-null check — with the non-null values
`viewOnly: false` and `qualityLevel: 0` an instance is constructed but no
pass-through setting is applied at all, contradicting the claim that every
non-null setting is applied. -/
theorem c2_nonnull_falsy_not_applied :
    c2S.props.viewOnly = some false ∧
    c2S.props.qualityLevel = some 0 ∧
    (connect c2S).1.rfb.isSome = true ∧
    ((connect c2S).2).countP isAssignEffect = 0 := by
  refine ⟨rfl, rfl, rfl, rfl⟩

/-- C2 amended: every call to `connect` that constructs an instance applies
exactly the pass-through settings whose current value is *truthy* (so a
non-null `false` or `0` or `""` is NOT applied), each exactly once,
immediately after construction, and the event-listener registrations all
come after these applications. -/
theorem c2_connect_applies_truthy_then_listeners (s : CState) (cv : Nat)
    (hcv : s.canvas = some cv) :
    (connect s).2 = (disconnect s).2 ++ Effect.construct cv s.props.url s.props
        :: (passAssignEffects s.props ++ listenerEffects s.props) ∧
    (∀ f v, Effect.assign f v ∈ passAssignEffects s.props ↔
      truthyVal s.props f = some v) ∧
    (∀ f v, truthyVal s.props f = some v →
      (passAssignEffects s.props).count (Effect.assign f v) = 1) ∧
    (∀ e ∈ listenerEffects s.props, ∃ ev, e = Effect.addListener ev) := by
  refine ⟨?_, fun f v => mem_passAssignEffects,
    fun f v h => count_passAssignEffects h, ?_⟩
  · rcases hd : s.rfb with _ | i <;> simp [connect, disconnect, hd, hcv]
  · intro e he
    unfold listenerEffects at he
    rw [List.mem_map] at he
    obtain ⟨pr, _, rfl⟩ := he
    exact ⟨pr.1, rfl⟩

def c2wProps : Props :=
  { defaultProps "wss://example2w" with viewOnly := some true, qualityLevel := some 7 }

def c2wS : CState := { initState c2wProps with mounted := true, canvas := some 0 }

/-- C2 witness: connecting with `viewOnly: true` and `qualityLevel: 7`
produces the construct-then-assign trace, and the quality assignment
happens exactly once. -/
theorem c2_connect_applies_truthy_then_listeners_witness :
    (connect c2wS).2 = (disconnect c2wS).2 ++
        Effect.construct 0 c2wS.props.url c2wS.props
        :: (passAssignEffects c2wS.props ++ listenerEffects c2wS.props) ∧
    (passAssignEffects c2wS.props).count
      (Effect.assign .qualityLevel (.vi 7)) = 1 :=
  ⟨(c2_connect_applies_truthy_then_listeners c2wS 0 rfl).1,
   (c2_connect_applies_truthy_then_listeners c2wS 0 rfl).2.2.1
     .qualityLevel (.vi 7) rfl⟩

/-! ## C5 -/

/-- C5: `connect` with no container handle first tears down any existing
instance, constructs nothing, raises nothing, and every subsequent
operation (props update, mouse enter/leave, disconnect, unmount) is a
non-raising no-op on the absent instance. -/
theorem c5_connect_without_canvas (s : CState) (h : s.canvas = none) :
    (connect s).1.rfb = none ∧
    (connect s).2 = (disconnect s).2 ∧
    ((connect s).2).countP isConstructEffect = 0 ∧
    (∀ next, willReceiveProps (connect s).1 next = ([], none)) ∧
    handleMouseEnter (connect s).1 = [] ∧
    handleMouseLeave (connect s).1 = [] ∧
    disconnect (connect s).1 = ((connect s).1, []) ∧
    (doUnmount (connect s).1).1.rfb = none ∧
    (doUnmount (connect s).1).2 = [] := by
  rcases hd : s.rfb with _ | i <;>
    simp [connect, disconnect, doUnmount, willReceiveProps, handleMouseEnter,
      handleMouseLeave, hd, h, List.countP_cons, isConstructEffect]

def c5S : CState := { initState (defaultProps "wss://example5") with mounted := true }

/-- C5 witness: a mounted component whose ref callback never delivered a
handle has no instance, and a props update on it is a silent no-op. -/
theorem c5_connect_without_canvas_witness :
    (connect c5S).1.rfb = none ∧
    willReceiveProps (connect c5S).1 (defaultProps "wss://example5") = ([], none) :=
  ⟨(c5_connect_without_canvas c5S rfl).1,
   (c5_connect_without_canvas c5S rfl).2.2.2.1 (defaultProps "wss://example5")⟩

/-! ## C9 -/

def c9Props : Props :=
  { defaultProps "wss://host/path" with width := 640, height := 480 }

def c9S : CState := { initState c9Props with mounted := true, canvas := some 0 }

/-- C9: `render` produces exactly one container element, styled by the
explicit style object when supplied and by the width/height props
otherwise (defaults 1280×720); for `{url: "wss://host/path", width: 640,
height: 480}` the container is 640×480, `connect` constructs exactly one
instance against that container and URL, and performs no pass-through
assignment (all pass-through defaults being null). -/
theorem c9_render_one_container (p : Props) :
    (render p).length = 1 ∧
    (∀ st, p.style = some st → render p = [StyleVal.explicitStyle st]) ∧
    (p.style = none → render p = [StyleVal.sized p.width p.height]) ∧
    render (defaultProps "wss://example9") = [StyleVal.sized 1280 720] ∧
    render c9Props = [StyleVal.sized 640 480] ∧
    (connect c9S).2 = [Effect.construct 0 "wss://host/path" c9Props] ∧
    (connect c9S).1.rfb =
      some { id := 0, canvasRef := 0, url := "wss://host/path", listeners := [] } :=
  ⟨rfl, fun st h => by simp [render, h], fun h => by simp [render, h],
   rfl, rfl, rfl, rfl⟩

def c9wProps : Props := { defaultProps "wss://example9w" with style := some 5 }

/-- C9 witness: an explicit style object overrides the width/height
sizing. -/
theorem c9_render_one_container_witness :
    render c9wProps = [StyleVal.explicitStyle 5] :=
  (c9_render_one_container c9wProps).2.1 5 rfl

/-! ## C3 -/

/-- The lifecycle invariant: the instance reference is non-null iff the
component is mounted and a container handle was available at the last
connect attempt; every live instance is recorded in `usedIds`, and every
recorded id is below the id supply. -/
def LifecycleInv (s : CState) : Prop :=
  (s.rfb.isSome = true ↔ (s.mounted = true ∧ s.lastConnectHadCanvas = true)) ∧
  (∀ i, s.rfb = some i → i.id ∈ s.usedIds) ∧
  (∀ n ∈ s.usedIds, n < s.nextId)

lemma doMount_none_eq (s : CState) (hrfb : s.rfb = none) :
    (doMount s none).1 =
      { s with mounted := true, canvas := none, lastConnectHadCanvas := false } := by
  simp [doMount, connect, disconnect, hrfb]

lemma doMount_some_eq (s : CState) (c : Nat) (hrfb : s.rfb = none) :
    (doMount s (some c)).1 =
      { s with
          mounted := true
          canvas := some c
          rfb := some { id := s.nextId, canvasRef := c, url := s.props.url,
                        listeners := registrations s.props }
          nextId := s.nextId + 1
          lastConnectHadCanvas := true
          usedIds := s.usedIds ++ [s.nextId] } := by
  simp [doMount, connect, disconnect, hrfb]

lemma doUnmount_none_eq (s : CState) (hrfb : s.rfb = none) :
    (doUnmount s).1 = { s with mounted := false } := by
  simp [doUnmount, disconnect, hrfb]

lemma doUnmount_some_eq (s : CState) (j : Inst) (hrfb : s.rfb = some j) :
    (doUnmount s).1 = { s with mounted := false, rfb := none } := by
  simp [doUnmount, disconnect, hrfb]

lemma connect_rfb_id (s : CState) :
    ∀ i, (connect s).1.rfb = some i → i.id = s.nextId := by
  intro i h
  rcases hd : s.rfb with _ | j <;> rcases hc : s.canvas with _ | c <;>
    simp [connect, disconnect, hd, hc] at h <;> simp [← h]

lemma reachable_inv {p : Props} {s : CState} (h : Reachable p s) :
    LifecycleInv s := by
  induction h with
  | init =>
    exact ⟨by simp [initState], fun i hi => by simp [initState] at hi,
      fun n hn => by simp [initState] at hn⟩
  | @mount s' cv hr hm ih =>
    obtain ⟨hiff, hmem, hlt⟩ := ih
    have hrfb : s'.rfb = none := by
      rcases hh : s'.rfb with _ | j
      · rfl
      · have := hiff.mp (by rw [hh]; rfl)
        rw [hm] at this
        exact absurd this.1 (by simp)
    rcases cv with _ | c
    · rw [doMount_none_eq s' hrfb]
      refine ⟨by simp [hrfb], fun i hi => ?_, fun n hn => hlt n hn⟩
      simp only [hrfb] at hi
      cases hi
    · rw [doMount_some_eq s' c hrfb]
      refine ⟨by simp, fun i hi => ?_, fun n hn => ?_⟩
      · simp only [Option.some.injEq] at hi
        simp [← hi]
      · simp only [List.mem_append, List.mem_singleton] at hn
        rcases hn with hn | hn
        · exact Nat.lt_succ_of_lt (hlt n hn)
        · simp [hn]
  | @update s' next hr hm ih =>
    obtain ⟨hiff, hmem, hlt⟩ := ih
    exact ⟨hiff, hmem, hlt⟩
  | @unmount s' hr hm ih =>
    obtain ⟨hiff, hmem, hlt⟩ := ih
    rcases hh : s'.rfb with _ | j
    · rw [doUnmount_none_eq s' hh]
      exact ⟨by simp [hh], fun i hi => by simp [hh] at hi,
        fun n hn => hlt n (by simpa using hn)⟩
    · rw [doUnmount_some_eq s' j hh]
      exact ⟨by simp, fun i hi => by simp at hi,
        fun n hn => hlt n (by simpa using hn)⟩

/-- C3: over the component's lifecycle, the instance reference is non-null
iff the component is mounted and a container handle was available at the
last connect attempt; every live instance's id is recorded, and any
instance `connect` would construct from here carries an id never used
before — each connect creates a fresh instance, none is ever reused. -/
theorem c3_lifecycle_invariant_and_freshness (p : Props) (s : CState)
    (h : Reachable p s) :
    (s.rfb.isSome = true ↔ (s.mounted = true ∧ s.lastConnectHadCanvas = true)) ∧
    (∀ i, s.rfb = some i → i.id ∈ s.usedIds) ∧
    (∀ i, (connect s).1.rfb = some i → i.id ∉ s.usedIds) := by
  obtain ⟨hiff, hmem, hlt⟩ := reachable_inv h
  refine ⟨hiff, hmem, fun i hi hin => ?_⟩
  have hid := connect_rfb_id s i hi
  have hbound := hlt _ hin
  omega

def c3P : Props := defaultProps "wss://example3"

def c3S : CState := (doMount (initState c3P) (some 0)).1

def c3Inst : Inst := { id := 0, canvasRef := 0, url := "wss://example3", listeners := [] }

def c3Inst2 : Inst := { id := 1, canvasRef := 0, url := "wss://example3", listeners := [] }

/-- C3 witness: after mounting with a container handle the invariant holds
concretely, the live instance's id is recorded, and a reconnect would
construct a distinct (fresh) instance id. -/
theorem c3_lifecycle_invariant_and_freshness_witness :
    c3S.rfb.isSome = true ∧
    c3Inst.id ∈ c3S.usedIds ∧
    c3Inst2.id ∉ c3S.usedIds :=
  ⟨(c3_lifecycle_invariant_and_freshness c3P c3S
      (Reachable.mount (some 0) Reachable.init rfl)).1.mpr ⟨rfl, rfl⟩,
   (c3_lifecycle_invariant_and_freshness c3P c3S
      (Reachable.mount (some 0) Reachable.init rfl)).2.1 c3Inst rfl,
   (c3_lifecycle_invariant_and_freshness c3P c3S
      (Reachable.mount (some 0) Reachable.init rfl)).2.2 c3Inst2 rfl⟩

/-! ## C7 -/

lemma events_fst_nodup : (events.map Prod.fst).Nodup := by decide

lemma events_functional {ev : EventName} {sl sl' : Slot}
    (h : (ev, sl) ∈ events) (h' : (ev, sl') ∈ events) : sl = sl' := by
  revert h h'
  revert ev sl sl'
  decide

lemma registrations_sublist (p : Props) : (registrations p).Sublist events :=
  List.filter_sublist events

lemma mem_registrations {p : Props} {ev : EventName} {sl : Slot} :
    (ev, sl) ∈ registrations p ↔ ((ev, sl) ∈ events ∧ (getSlot p sl).isSome) := by
  unfold registrations
  rw [List.mem_filter]

lemma nodup_listenerEffects (p : Props) : (listenerEffects p).Nodup := by
  have hsub : ((registrations p).map (fun pr => Effect.addListener pr.1)).Sublist
      (events.map (fun pr => Effect.addListener pr.1)) :=
    (registrations_sublist p).map _
  exact List.Nodup.sublist hsub (by decide)

lemma find?_filter_fst {l : List (EventName × Slot)} {p : Props}
    {ev : EventName} {sl : Slot}
    (hnd : (l.map Prod.fst).Nodup) (hmem : (ev, sl) ∈ l)
    (hsome : (getSlot p sl).isSome) :
    (l.filter (fun pr => (getSlot p pr.2).isSome)).find?
      (fun pr => decide (pr.1 = ev)) = some (ev, sl) := by
  induction l with
  | nil => exact absurd hmem (List.not_mem_nil _)
  | cons hd tl ih =>
    rw [List.map_cons, List.nodup_cons] at hnd
    rcases List.mem_cons.1 hmem with heq | hmem'
    · rw [List.filter_cons, ← heq]
      rw [if_pos (by simpa using hsome)]
      exact List.find?_cons_of_pos _ (by simp)
    · have hne : ¬ hd.1 = ev := fun h => hnd.1 (h ▸ List.mem_map_of_mem Prod.fst hmem')
      rw [List.filter_cons]
      split
      · rw [List.find?_cons_of_neg _ (by simpa using hne)]
        exact ih hnd.2 hmem'
      · exact ih hnd.2 hmem'

lemma find?_registrations {p : Props} {ev : EventName} {sl : Slot}
    (hmem : (ev, sl) ∈ events) (hsome : (getSlot p sl).isSome) :
    (registrations p).find? (fun pr => decide (pr.1 = ev)) = some (ev, sl) :=
  find?_filter_fst events_fst_nodup hmem hsome

def c7Props : Props := { defaultProps "wss://example7" with onBell := some 7 }

def c7S : CState := (doMount (initState c7Props) (some 0)).1

/-- C7: at connect time, each entry of the fixed event mapping whose
callback prop is non-null gets exactly one listener registered, entries
with a null callback get none, and a fired event for a registered entry
invokes the configured callback (the handler passes it no arguments —
`FireResult.invoked` carries only the callback handle).  With only
`onBell` set, a fired bell event invokes the caller's callback and every
other event finds no listener. -/
theorem c7_event_bridge (p : Props) :
    (∀ ev sl cb, (ev, sl) ∈ events → getSlot p sl = some cb →
      (listenerEffects p).count (Effect.addListener ev) = 1) ∧
    (∀ ev sl, (ev, sl) ∈ events → getSlot p sl = none →
      Effect.addListener ev ∉ listenerEffects p) ∧
    (∀ (s : CState) (i : Inst) (ev : EventName) (sl : Slot) (cb : Nat),
      s.rfb = some i → i.listeners = registrations s.props →
      (ev, sl) ∈ events → getSlot s.props sl = some cb →
      fireEvent s ev = .invoked cb) ∧
    (fireEvent c7S .bell = .invoked 7 ∧
      ∀ ev, ev ≠ EventName.bell → fireEvent c7S ev = .noListener) := by
  refine ⟨?_, ?_, ?_, rfl, ?_⟩
  · intro ev sl cb hev hcb
    have hmem : Effect.addListener ev ∈ listenerEffects p := by
      unfold listenerEffects
      exact List.mem_map.2 ⟨(ev, sl), mem_registrations.2 ⟨hev, by simp [hcb]⟩, rfl⟩
    exact List.count_eq_one_of_mem (nodup_listenerEffects p) hmem
  · intro ev sl hev hnull hmem
    unfold listenerEffects at hmem
    obtain ⟨⟨e1, s1⟩, hpr, hfst⟩ := List.mem_map.1 hmem
    injection hfst with hfst
    subst hfst
    obtain ⟨hprev, hprsome⟩ := mem_registrations.1 hpr
    have hsl : s1 = sl := events_functional hprev hev
    rw [hsl, hnull] at hprsome
    simp at hprsome
  · intro s i ev sl cb hrfb hlist hev hcb
    unfold fireEvent
    rw [hrfb]
    dsimp only
    rw [hlist, find?_registrations hev (by simp [hcb])]
    dsimp only
    rw [hcb]
  · intro ev hne
    cases ev <;> first | rfl | exact absurd rfl hne

/-- C7 witness: with only `onBell` configured, exactly one bell listener
is registered, and a registered live mapping dispatches to the configured
callback. -/
theorem c7_event_bridge_witness :
    (listenerEffects c7Props).count (Effect.addListener EventName.bell) = 1 ∧
    fireEvent c7S EventName.bell = FireResult.invoked 7 :=
  ⟨(c7_event_bridge c7Props).1 .bell .onBell 7 (by decide) rfl,
   (c7_event_bridge c7Props).2.2.2.1⟩

/-! ## C10 -/

def c10Props (f : Nat) : Props := { defaultProps "wss://example10" with onBell := some f }

def c10S1 (f : Nat) : CState := (doMount (initState (c10Props f)) (some 0)).1

def c10S2 (f g : Nat) : CState := (doUpdate (c10S1 f) (c10Props g)).1

/-- C10: event callbacks are late-bound — the listener set on the instance
is fixed at connect and untouched by a props update, yet after replacing
the `onBell` prop a fired bell event invokes the replacement callback,
not the one configured at registration time; the update itself performs
no effect and raises nothing. -/
theorem c10_listeners_late_bound (f g : Nat) :
    (c10S2 f g).rfb = (c10S1 f).rfb ∧
    fireEvent (c10S1 f) .bell = .invoked f ∧
    fireEvent (c10S2 f g) .bell = .invoked g ∧
    willReceiveProps (c10S1 f) (c10Props g) = ([], none) :=
  ⟨rfl, rfl, rfl, rfl⟩
